import Mathlib

/-!
Verification of the RustSpatial geometric distance engine.

The data model (Vertex, Line, Path) and the distance algorithms
(Euclidean, Haversine, Vincenty) are embedded shallowly from the
Rust source.  Rust f64 values are modelled as real numbers for the
arithmetic claims; for the claims that hinge on IEEE float equality
(NaN is unequal to itself) the coordinates are instantiated at a
dedicated carrier type `FP` with the IEEE comparison semantics.
The coordinate type is therefore a parameter of the data model.
-/

namespace RustSpatial

/-- Mirrors `Vertex` from src/geometries/vertex.rs: an immutable pair of
coordinates.  `α` is the coordinate carrier (ℝ for arithmetic claims,
`FP` for IEEE-equality claims). -/
structure Vertex (α : Type) where
  latitude : α
  longitude : α
deriving DecidableEq

/-- Mirrors `impl PartialEq for Vertex`: field-wise equality of both
coordinates, using the coordinate type's own (Rust `==`) comparison. -/
def Vertex.eq {α : Type} [BEq α] (a b : Vertex α) : Bool :=
  a.latitude == b.latitude && a.longitude == b.longitude

/-- Mirrors `Vertex::is_equal`, which delegates to `==`. -/
def Vertex.is_equal {α : Type} [BEq α] (a b : Vertex α) : Bool :=
  Vertex.eq a b

/-- Mirrors `Line` from src/geometries/line.rs. -/
structure Line (α : Type) where
  starting_vertex : Vertex α
  ending_vertex : Vertex α
deriving DecidableEq

/-- Mirrors `Line::line_is_valid`: the two endpoints are different
(Rust `!=`, i.e. the negation of `PartialEq::eq`). -/
def Line.line_is_valid {α : Type} [BEq α] (starting_vertex ending_vertex : Vertex α) : Bool :=
  !(Vertex.eq starting_vertex ending_vertex)

/-- Mirrors `Line::new`.  The Rust error is a `String` produced by
`format!`, naming both offending vertices via their `Display` form; the
message is a function of exactly the two vertices, so the error payload
is modelled as the pair of offending vertices. -/
def Line.new {α : Type} [BEq α] (starting_vertex ending_vertex : Vertex α) :
    Except (Vertex α × Vertex α) (Line α) :=
  if !(Line.line_is_valid starting_vertex ending_vertex) then
    .error (starting_vertex, ending_vertex)
  else
    .ok ⟨starting_vertex, ending_vertex⟩

/-- Modelled from the spec: the repository's `consts` module is not under
src/ (only its users are).  Spec §6 lists the physical constants (mean
Earth radius in km, Earth radius in meters, ellipsoid semi-major and
semi-minor axis lengths, flattening) without numeric values, and §9 says
to model them as a read-only configuration object passed explicitly into
the distance functions.  All claims hold for every value of the
constants, so they stay abstract. -/
structure EarthConstants where
  EARTH_RADIUS_KM : ℝ
  FLATTENING : ℝ
  SEMI_MAJOR_AXIS_LENGTH : ℝ
  SEMI_MINOR_AXIS_LENGTH : ℝ

/-- Mirrors `degrees_to_radians` from src/math/conversion.rs. -/
noncomputable def degrees_to_radians (degree : ℝ) : ℝ :=
  degree * Real.pi / 180

/-- Mirrors the private `Line::degrees_to_radians` from
src/geometries/line.rs (same formula, duplicated in the source). -/
noncomputable def Line.degrees_to_radians (degree : ℝ) : ℝ :=
  degree * Real.pi / 180

/-- The two-argument arctangent, as computed by Rust's `f64::atan2`
(`y.atan2(x)` is the angle of the point `(x, y)`). -/
noncomputable def atan2 (y x : ℝ) : ℝ :=
  if 0 < x then Real.arctan (y / x)
  else if x < 0 ∧ 0 ≤ y then Real.arctan (y / x) + Real.pi
  else if x < 0 ∧ y < 0 then Real.arctan (y / x) - Real.pi
  else if x = 0 ∧ 0 < y then Real.pi / 2
  else if x = 0 ∧ y < 0 then -(Real.pi / 2)
  else 0

/-- Mirrors `Line::calculate_earth_radius_distance` (Haversine) from
src/geometries/line.rs. -/
noncomputable def Line.calculate_earth_radius_distance (l : Line ℝ) (k : EarthConstants) : ℝ :=
  let lat1_rad := Line.degrees_to_radians l.starting_vertex.latitude
  let lat2_rad := Line.degrees_to_radians l.ending_vertex.latitude
  let lon1_rad := Line.degrees_to_radians l.starting_vertex.longitude
  let lon2_rad := Line.degrees_to_radians l.ending_vertex.longitude
  let dist_lat := lat2_rad - lat1_rad
  let dist_lon := lon2_rad - lon1_rad
  let a := Real.sin (dist_lat / 2) ^ 2
    + Real.cos lat1_rad * Real.cos lat2_rad * Real.sin (dist_lon / 2) ^ 2
  let c := 2 * atan2 (Real.sqrt a) (Real.sqrt (1 - a))
  k.EARTH_RADIUS_KM * c

/-- Mirrors `Line::calculate_euclidean_distance` from
src/geometries/line.rs. -/
noncomputable def Line.calculate_euclidean_distance (l : Line ℝ) : ℝ :=
  let dx := l.ending_vertex.latitude - l.starting_vertex.latitude
  let dy := l.ending_vertex.longitude - l.starting_vertex.longitude
  Real.sqrt (dx * dx + dy * dy)

/-- Mirrors the free function `calculate_earth_radius_distance_haversine`
from src/math/distance.rs. -/
noncomputable def calculate_earth_radius_distance_haversine
    (k : EarthConstants) (starting_vertex ending_vertex : Vertex ℝ) : ℝ :=
  let lat1_rad := degrees_to_radians starting_vertex.latitude
  let lat2_rad := degrees_to_radians ending_vertex.latitude
  let lon1_rad := degrees_to_radians starting_vertex.longitude
  let lon2_rad := degrees_to_radians ending_vertex.longitude
  let dist_lat := lat2_rad - lat1_rad
  let dist_lon := lon2_rad - lon1_rad
  let a := Real.sin (dist_lat / 2) ^ 2
    + Real.cos lat1_rad * Real.cos lat2_rad * Real.sin (dist_lon / 2) ^ 2
  let c := 2 * atan2 (Real.sqrt a) (Real.sqrt (1 - a))
  k.EARTH_RADIUS_KM * c

/-- Mirrors the spec's Haversine formula (§4.2) word for word, for the
refinement claim that the code computes exactly this formula:
`a = sin²(Δφ/2) + cos φ1 · cos φ2 · sin²(Δλ/2)`,
`c = 2·atan2(√a, √(1−a))`, `distance = R·c`, all angles converted from
degrees to radians. -/
noncomputable def haversineSpecFormula
    (k : EarthConstants) (p1 p2 : Vertex ℝ) : ℝ :=
  let phi1 := degrees_to_radians p1.latitude
  let phi2 := degrees_to_radians p2.latitude
  let lam1 := degrees_to_radians p1.longitude
  let lam2 := degrees_to_radians p2.longitude
  let dphi := phi2 - phi1
  let dlam := lam2 - lam1
  let a := Real.sin (dphi / 2) ^ 2 + Real.cos phi1 * Real.cos phi2 * Real.sin (dlam / 2) ^ 2
  let c := 2 * atan2 (Real.sqrt a) (Real.sqrt (1 - a))
  k.EARTH_RADIUS_KM * c

/-- A model of an f64 value for the claims that hinge on IEEE float
equality: either an ordinary number (carried as a rational so the model
stays computable) or NaN.  Rust `==` on f64 is false whenever either side
is NaN, and numeric comparison otherwise. -/
inductive FP where
  | num (q : ℚ)
  | nan
deriving DecidableEq

/-- IEEE f64 `==`: NaN compares unequal to everything, itself included. -/
def FP.feq : FP → FP → Bool
  | .num a, .num b => a == b
  | _, _ => false

instance instBEqFP : BEq FP := ⟨FP.feq⟩

/-- Mirrors `PathCalcFullDistanceOptions` from src/geometries/path.rs. -/
inductive PathCalcFullDistanceOptions where
  | Euclidean
  | EarthRadius

/-- Mirrors `Path<N>` from src/geometries/path.rs.  The const-generic
array `[Line; N]` is modelled as a list, as the spec (§9) prescribes for
hosts without compile-time lengths. -/
structure Path (α : Type) where
  lines : List (Line α)

/-- Mirrors `Path::path_is_valid`: the previous line ends where the
current line starts. -/
def Path.path_is_valid {α : Type} [BEq α] (last_line current_line : Line α) : Bool :=
  Vertex.eq last_line.ending_vertex current_line.starting_vertex

/-- The validation loop of `Path::new` (`for i in 1..lines.len()`),
walking adjacent pairs and returning the first offending index pair
`(i - 1, i)`, or `none` when every adjacency holds.  `i` is the index of
the second line of the pair currently being checked (starting at 1). -/
def pathFirstBreak {α : Type} [BEq α] (i : ℕ) : List (Line α) → Option (ℕ × ℕ)
  | a :: b :: rest =>
    if Path.path_is_valid a b then pathFirstBreak (i + 1) (b :: rest)
    else some (i - 1, i)
  | _ => none

/-- Mirrors `Path::new`: validate every adjacency, failing fast with the
offending index pair (the Rust error message is a `format!` string naming
indices `i - 1` and `i`; the payload is modelled as that index pair). -/
def Path.new {α : Type} [BEq α] (lines : List (Line α)) :
    Except (ℕ × ℕ) (Path α) :=
  match pathFirstBreak 1 lines with
  | some e => .error e
  | none => .ok ⟨lines⟩

/-- Mirrors `Path::calculate_full_distance`.  The Rust
`par_iter().map(..).sum()` is a parallel sum of the per-line distances;
over the real-number model of f64 the reduction order is irrelevant
(spec §4.4), so it is modelled as the list sum. -/
noncomputable def Path.calculate_full_distance
    (p : Path ℝ) (k : EarthConstants) (methodology : PathCalcFullDistanceOptions) : ℝ :=
  match methodology with
  | .Euclidean => (p.lines.map (fun line => line.calculate_euclidean_distance)).sum
  | .EarthRadius => (p.lines.map (fun line => line.calculate_earth_radius_distance k)).sum

/-- The per-segment distance selected by a methodology, used to state
that the full-path distance is the sum of per-segment distances. -/
noncomputable def segmentDistance
    (k : EarthConstants) (methodology : PathCalcFullDistanceOptions) (l : Line ℝ) : ℝ :=
  match methodology with
  | .Euclidean => l.calculate_euclidean_distance
  | .EarthRadius => l.calculate_earth_radius_distance k

/-- The reduced latitude of step 2 of Vincenty's method:
`U = atan((1 - f)·tan(lat_rad))`, from src/math/distance.rs lines
121-122 (argument is the latitude already converted to radians). -/
noncomputable def vincentyU (k : EarthConstants) (lat_rad : ℝ) : ℝ :=
  Real.arctan ((1 - k.FLATTENING) * Real.tan lat_rad)

/-- `sin_sigma` of one Vincenty iteration (src/math/distance.rs lines
145-147), as a function of the current `lambda`. -/
noncomputable def vincentySinSigma (sin_u1 cos_u1 sin_u2 cos_u2 lambda : ℝ) : ℝ :=
  Real.sqrt ((cos_u2 * Real.sin lambda) ^ 2
    + (cos_u1 * sin_u2 - sin_u1 * cos_u2 * Real.cos lambda) ^ 2)

/-- `cos_sigma` of one Vincenty iteration (line 153). -/
noncomputable def vincentyCosSigma (sin_u1 cos_u1 sin_u2 cos_u2 lambda : ℝ) : ℝ :=
  sin_u1 * sin_u2 + cos_u1 * cos_u2 * Real.cos lambda

/-- `sigma` of one Vincenty iteration (line 154). -/
noncomputable def vincentySigma (sin_u1 cos_u1 sin_u2 cos_u2 lambda : ℝ) : ℝ :=
  atan2 (vincentySinSigma sin_u1 cos_u1 sin_u2 cos_u2 lambda)
    (vincentyCosSigma sin_u1 cos_u1 sin_u2 cos_u2 lambda)

/-- `sin_alpha` of one Vincenty iteration (line 156). -/
noncomputable def vincentySinAlpha (sin_u1 cos_u1 sin_u2 cos_u2 lambda : ℝ) : ℝ :=
  cos_u1 * cos_u2 * Real.sin lambda / vincentySinSigma sin_u1 cos_u1 sin_u2 cos_u2 lambda

/-- `cos2_sigma_m` of one Vincenty iteration (line 157). -/
noncomputable def vincentyCos2SigmaM (sin_u1 cos_u1 sin_u2 cos_u2 lambda : ℝ) : ℝ :=
  1 - vincentySinAlpha sin_u1 cos_u1 sin_u2 cos_u2 lambda ^ 2

/-- The correction term `c` of one Vincenty iteration (line 159). -/
noncomputable def vincentyC (k : EarthConstants) (sin_u1 cos_u1 sin_u2 cos_u2 lambda : ℝ) : ℝ :=
  k.FLATTENING / 16 * vincentyCos2SigmaM sin_u1 cos_u1 sin_u2 cos_u2 lambda
    * (4 + k.FLATTENING * (4 - 3 * vincentyCos2SigmaM sin_u1 cos_u1 sin_u2 cos_u2 lambda))

/-- The updated `lambda` of one Vincenty iteration (lines 162-167),
where `bigL` is the original longitude difference `lon2_rad - lon1_rad`. -/
noncomputable def vincentyNext
    (k : EarthConstants) (bigL sin_u1 cos_u1 sin_u2 cos_u2 lambda : ℝ) : ℝ :=
  bigL + (1 - vincentyC k sin_u1 cos_u1 sin_u2 cos_u2 lambda) * k.FLATTENING
    * vincentySinAlpha sin_u1 cos_u1 sin_u2 cos_u2 lambda
    * (vincentySigma sin_u1 cos_u1 sin_u2 cos_u2 lambda
      + vincentyC k sin_u1 cos_u1 sin_u2 cos_u2 lambda
        * vincentySinSigma sin_u1 cos_u1 sin_u2 cos_u2 lambda
        * (vincentyCos2SigmaM sin_u1 cos_u1 sin_u2 cos_u2 lambda
          + vincentyC k sin_u1 cos_u1 sin_u2 cos_u2 lambda
            * vincentyCosSigma sin_u1 cos_u1 sin_u2 cos_u2 lambda
            * (-1 + 2 * vincentyCos2SigmaM sin_u1 cos_u1 sin_u2 cos_u2 lambda)))

/-- The post-loop distance computation of Vincenty (src/math/distance.rs
lines 176-198): `u²`, `A`, `B`, `Δσ`, and `b·A·(σ - Δσ)`. -/
noncomputable def vincentyFinal
    (k : EarthConstants) (sin_sigma cos_sigma sigma cos2_sigma_m : ℝ) : ℝ :=
  let u_squared := cos2_sigma_m
    * (k.SEMI_MAJOR_AXIS_LENGTH * k.SEMI_MAJOR_AXIS_LENGTH
      - k.SEMI_MINOR_AXIS_LENGTH * k.SEMI_MINOR_AXIS_LENGTH)
    / (k.SEMI_MINOR_AXIS_LENGTH * k.SEMI_MINOR_AXIS_LENGTH)
  let a_term := 1 + u_squared / 16384
    * (4096 + u_squared * (-768 + u_squared * (320 - 175 * u_squared)))
  let b_term := u_squared / 1024
    * (256 + u_squared * (-128 + u_squared * (74 - 47 * u_squared)))
  let delta_sigma := b_term * sin_sigma
    * (cos2_sigma_m + b_term / 4
      * (cos_sigma * (-1 + 2 * cos2_sigma_m ^ 2)
        - b_term / 6 * cos2_sigma_m * (-3 + 4 * sin_sigma ^ 2)
          * (-3 + 4 * cos2_sigma_m ^ 2)))
  k.SEMI_MINOR_AXIS_LENGTH * a_term * (sigma - delta_sigma)

/-- The distance returned when the iteration breaks at the current
`lambda`: `vincentyFinal` applied to the current iteration's
`sin_sigma`, `cos_sigma`, `sigma` and `cos2_sigma_m` (the Rust break
leaves the loop with the values computed from the entry `lambda`). -/
noncomputable def vincentyBreak
    (k : EarthConstants) (sin_u1 cos_u1 sin_u2 cos_u2 lambda : ℝ) : ℝ :=
  vincentyFinal k
    (vincentySinSigma sin_u1 cos_u1 sin_u2 cos_u2 lambda)
    (vincentyCosSigma sin_u1 cos_u1 sin_u2 cos_u2 lambda)
    (vincentySigma sin_u1 cos_u1 sin_u2 cos_u2 lambda)
    (vincentyCos2SigmaM sin_u1 cos_u1 sin_u2 cos_u2 lambda)

/-- The Vincenty `loop` (src/math/distance.rs lines 137-174) with
`iter_limit` as explicit fuel.  One fuel unit is one execution of the
loop body: at `iter_limit == 0` the loop entry fails with the
non-convergence error; otherwise the body computes `sin_sigma`, returns
`Ok(0.0)` when it is exactly zero, breaks with the distance when the
updated `lambda` moved less than `1e-12`, and otherwise recurses on the
updated `lambda` with one unit of fuel fewer. -/
noncomputable def vincentyLoop
    (k : EarthConstants) (bigL sin_u1 cos_u1 sin_u2 cos_u2 : ℝ) :
    ℕ → ℝ → Except String ℝ
  | 0, _ => .error "Convergência não atingida"
  | n + 1, lambda =>
    if vincentySinSigma sin_u1 cos_u1 sin_u2 cos_u2 lambda = 0 then .ok 0
    else if |vincentyNext k bigL sin_u1 cos_u1 sin_u2 cos_u2 lambda - lambda| < 1e-12 then
      .ok (vincentyBreak k sin_u1 cos_u1 sin_u2 cos_u2 lambda)
    else vincentyLoop k bigL sin_u1 cos_u1 sin_u2 cos_u2 n
      (vincentyNext k bigL sin_u1 cos_u1 sin_u2 cos_u2 lambda)

/-- Mirrors `calculate_earth_radius_distance_vincenty` from
src/math/distance.rs: convert to radians, form the reduced latitudes and
the initial longitude difference, and run the iteration with
`iter_limit = 100`. -/
noncomputable def calculate_earth_radius_distance_vincenty
    (k : EarthConstants) (starting_vertex ending_vertex : Vertex ℝ) : Except String ℝ :=
  let lat1_rad := degrees_to_radians starting_vertex.latitude
  let lat2_rad := degrees_to_radians ending_vertex.latitude
  let lon1_rad := degrees_to_radians starting_vertex.longitude
  let lon2_rad := degrees_to_radians ending_vertex.longitude
  let u1 := vincentyU k lat1_rad
  let u2 := vincentyU k lat2_rad
  vincentyLoop k (lon2_rad - lon1_rad) (Real.sin u1) (Real.cos u1) (Real.sin u2) (Real.cos u2)
    100 (lon2_rad - lon1_rad)

/-- A model of an f64 value for the Vincenty NaN trace: an ordinary
number (carried as a real) or NaN.  It refines the plain real-number
model of f64 with IEEE NaN semantics: every arithmetic and trigonometric
operation returns NaN when any operand is NaN, and every comparison
involving NaN is false.  Rounding, infinities and signed zero are not
modelled (IEEE division by zero is collapsed to NaN); no settled
statement reaches those cases. -/
inductive FF where
  | num (x : ℝ)
  | nan

/-- f64 addition with NaN propagation. -/
def FF.add : FF → FF → FF
  | .num a, .num b => .num (a + b)
  | _, _ => .nan

/-- f64 subtraction with NaN propagation. -/
def FF.sub : FF → FF → FF
  | .num a, .num b => .num (a - b)
  | _, _ => .nan

/-- f64 multiplication with NaN propagation. -/
def FF.mul : FF → FF → FF
  | .num a, .num b => .num (a * b)
  | _, _ => .nan

/-- f64 division with NaN propagation (the divisor-zero cases of IEEE
are collapsed to NaN; no settled statement reaches them). -/
noncomputable def FF.div : FF → FF → FF
  | .num a, .num b => if b = 0 then .nan else .num (a / b)
  | _, _ => .nan

/-- Rust `.powi(2)`, which multiplies the value by itself. -/
def FF.pow2 (a : FF) : FF := FF.mul a a

/-- f64 `sin` with NaN propagation. -/
noncomputable def FF.sin : FF → FF
  | .num x => .num (Real.sin x)
  | .nan => .nan

/-- f64 `cos` with NaN propagation. -/
noncomputable def FF.cos : FF → FF
  | .num x => .num (Real.cos x)
  | .nan => .nan

/-- f64 `tan` with NaN propagation. -/
noncomputable def FF.tan : FF → FF
  | .num x => .num (Real.tan x)
  | .nan => .nan

/-- f64 `atan` with NaN propagation. -/
noncomputable def FF.atan : FF → FF
  | .num x => .num (Real.arctan x)
  | .nan => .nan

/-- f64 `sqrt`: NaN on NaN or negative input. -/
noncomputable def FF.sqrt : FF → FF
  | .num x => if x < 0 then .nan else .num (Real.sqrt x)
  | .nan => .nan

/-- f64 `atan2` with NaN propagation. -/
noncomputable def FF.atan2v : FF → FF → FF
  | .num y, .num x => .num (atan2 y x)
  | _, _ => .nan

/-- f64 `abs` with NaN propagation. -/
noncomputable def FF.fabs : FF → FF
  | .num x => .num |x|
  | .nan => .nan

/-- f64 `==`: false whenever either side is NaN. -/
noncomputable def FF.beq : FF → FF → Bool
  | .num a, .num b => a == b
  | _, _ => false

/-- f64 `<`: false whenever either side is NaN. -/
noncomputable def FF.flt : FF → FF → Bool
  | .num a, .num b => decide (a < b)
  | _, _ => false

/-- `degrees_to_radians` over the NaN-aware f64 model. -/
noncomputable def degrees_to_radiansFF (degree : FF) : FF :=
  FF.div (FF.mul degree (FF.num Real.pi)) (FF.num 180)

/-- The reduced latitude of Vincenty step 2 over the NaN-aware model. -/
noncomputable def vincentyUFF (k : EarthConstants) (lat_rad : FF) : FF :=
  FF.atan (FF.mul (FF.sub (FF.num 1) (FF.num k.FLATTENING)) (FF.tan lat_rad))

/-- The Vincenty post-loop distance (src/math/distance.rs lines 176-198)
over the NaN-aware f64 model, operation for operation. -/
noncomputable def vincentyFinalFF
    (k : EarthConstants) (sin_sigma cos_sigma sigma cos2_sigma_m : FF) : FF :=
  let u_squared := FF.div (FF.mul cos2_sigma_m
    (FF.sub (FF.mul (FF.num k.SEMI_MAJOR_AXIS_LENGTH) (FF.num k.SEMI_MAJOR_AXIS_LENGTH))
      (FF.mul (FF.num k.SEMI_MINOR_AXIS_LENGTH) (FF.num k.SEMI_MINOR_AXIS_LENGTH))))
    (FF.mul (FF.num k.SEMI_MINOR_AXIS_LENGTH) (FF.num k.SEMI_MINOR_AXIS_LENGTH))
  let a_term := FF.add (FF.num 1) (FF.mul (FF.div u_squared (FF.num 16384))
    (FF.add (FF.num 4096) (FF.mul u_squared (FF.add (FF.num (-768))
      (FF.mul u_squared (FF.sub (FF.num 320) (FF.mul (FF.num 175) u_squared)))))))
  let b_term := FF.mul (FF.div u_squared (FF.num 1024))
    (FF.add (FF.num 256) (FF.mul u_squared (FF.add (FF.num (-128))
      (FF.mul u_squared (FF.sub (FF.num 74) (FF.mul (FF.num 47) u_squared))))))
  let delta_sigma := FF.mul (FF.mul b_term sin_sigma)
    (FF.add cos2_sigma_m (FF.mul (FF.div b_term (FF.num 4))
      (FF.sub (FF.mul cos_sigma (FF.add (FF.num (-1))
          (FF.mul (FF.num 2) (FF.pow2 cos2_sigma_m))))
        (FF.mul (FF.mul (FF.mul (FF.div b_term (FF.num 6)) cos2_sigma_m)
          (FF.add (FF.num (-3)) (FF.mul (FF.num 4) (FF.pow2 sin_sigma))))
          (FF.add (FF.num (-3)) (FF.mul (FF.num 4) (FF.pow2 cos2_sigma_m)))))))
  FF.mul (FF.mul (FF.num k.SEMI_MINOR_AXIS_LENGTH) a_term) (FF.sub sigma delta_sigma)

/-- The Vincenty `loop` (src/math/distance.rs lines 137-174) over the
NaN-aware f64 model, mirroring `vincentyLoop` operation for operation
(the `sin_sigma == 0.0` and `|λ' - λ| < 1e-12` tests use the IEEE
comparisons, which are false on NaN). -/
noncomputable def vincentyLoopFF (k : EarthConstants) (bigL s1 c1 s2 c2 : FF) :
    ℕ → FF → Except String FF
  | 0, _ => .error "Convergência não atingida"
  | n + 1, lambda =>
    let sin_lambda := FF.sin lambda
    let cos_lambda := FF.cos lambda
    let sin_sigma := FF.sqrt (FF.add (FF.pow2 (FF.mul c2 sin_lambda))
      (FF.pow2 (FF.sub (FF.mul c1 s2) (FF.mul (FF.mul s1 c2) cos_lambda))))
    if FF.beq sin_sigma (FF.num 0) then .ok (FF.num 0)
    else
      let cos_sigma := FF.add (FF.mul s1 s2) (FF.mul (FF.mul c1 c2) cos_lambda)
      let sigma := FF.atan2v sin_sigma cos_sigma
      let sin_alpha := FF.div (FF.mul (FF.mul c1 c2) sin_lambda) sin_sigma
      let cos2_sigma_m := FF.sub (FF.num 1) (FF.pow2 sin_alpha)
      let c := FF.mul (FF.mul (FF.div (FF.num k.FLATTENING) (FF.num 16)) cos2_sigma_m)
        (FF.add (FF.num 4) (FF.mul (FF.num k.FLATTENING)
          (FF.sub (FF.num 4) (FF.mul (FF.num 3) cos2_sigma_m))))
      let lambda2 := FF.add bigL
        (FF.mul (FF.mul (FF.mul (FF.sub (FF.num 1) c) (FF.num k.FLATTENING)) sin_alpha)
          (FF.add sigma (FF.mul (FF.mul c sin_sigma)
            (FF.add cos2_sigma_m (FF.mul (FF.mul c cos_sigma)
              (FF.add (FF.num (-1)) (FF.mul (FF.num 2) cos2_sigma_m)))))))
      if FF.flt (FF.fabs (FF.sub lambda2 lambda)) (FF.num 1e-12) then
        .ok (vincentyFinalFF k sin_sigma cos_sigma sigma cos2_sigma_m)
      else vincentyLoopFF k bigL s1 c1 s2 c2 n lambda2

/-- `calculate_earth_radius_distance_vincenty` over the NaN-aware f64
model: the same source function as the real-valued embedding, with every
f64 operation lifted to `FF` so that NaN inputs can be traced. -/
noncomputable def calculate_earth_radius_distance_vincentyFF
    (k : EarthConstants) (starting_vertex ending_vertex : Vertex FF) : Except String FF :=
  let lat1_rad := degrees_to_radiansFF starting_vertex.latitude
  let lat2_rad := degrees_to_radiansFF ending_vertex.latitude
  let lon1_rad := degrees_to_radiansFF starting_vertex.longitude
  let lon2_rad := degrees_to_radiansFF ending_vertex.longitude
  let u1 := vincentyUFF k lat1_rad
  let u2 := vincentyUFF k lat2_rad
  vincentyLoopFF k (FF.sub lon2_rad lon1_rad)
    (FF.sin u1) (FF.cos u1) (FF.sin u2) (FF.cos u2)
    100 (FF.sub lon2_rad lon1_rad)

/-! ## Helper lemmas -/

lemma sqrt_twentyfive : Real.sqrt 25 = 5 := by
  rw [show (25 : ℝ) = 5 ^ 2 by norm_num, Real.sqrt_sq (by norm_num : (0 : ℝ) ≤ 5)]

lemma euclid_swap (p q : Vertex ℝ) :
    (Line.mk p q).calculate_euclidean_distance
      = (Line.mk q p).calculate_euclidean_distance := by
  simp only [Line.calculate_euclidean_distance]
  congr 1
  ring

lemma haversine_swap (k : EarthConstants) (v1 v2 : Vertex ℝ) :
    calculate_earth_radius_distance_haversine k v1 v2
      = calculate_earth_radius_distance_haversine k v2 v1 := by
  simp only [calculate_earth_radius_distance_haversine, degrees_to_radians]
  have key : Real.sin ((v2.latitude * Real.pi / 180 - v1.latitude * Real.pi / 180) / 2) ^ 2
      + Real.cos (v1.latitude * Real.pi / 180) * Real.cos (v2.latitude * Real.pi / 180)
        * Real.sin ((v2.longitude * Real.pi / 180 - v1.longitude * Real.pi / 180) / 2) ^ 2
      = Real.sin ((v1.latitude * Real.pi / 180 - v2.latitude * Real.pi / 180) / 2) ^ 2
      + Real.cos (v2.latitude * Real.pi / 180) * Real.cos (v1.latitude * Real.pi / 180)
        * Real.sin ((v1.longitude * Real.pi / 180 - v2.longitude * Real.pi / 180) / 2) ^ 2 := by
    rw [show (v2.latitude * Real.pi / 180 - v1.latitude * Real.pi / 180) / 2
        = -((v1.latitude * Real.pi / 180 - v2.latitude * Real.pi / 180) / 2) by ring,
      show (v2.longitude * Real.pi / 180 - v1.longitude * Real.pi / 180) / 2
        = -((v1.longitude * Real.pi / 180 - v2.longitude * Real.pi / 180) / 2) by ring,
      Real.sin_neg, Real.sin_neg]
    ring
  rw [key]

lemma fp_feq_comm (a b : FP) : FP.feq a b = FP.feq b a := by
  cases a <;> cases b <;> simp [FP.feq]
  exact ⟨fun h => h.symm, fun h => h.symm⟩

lemma vertex_eq_comm_fp (p q : Vertex FP) : Vertex.eq p q = Vertex.eq q p := by
  show (FP.feq p.latitude q.latitude && FP.feq p.longitude q.longitude)
    = (FP.feq q.latitude p.latitude && FP.feq q.longitude p.longitude)
  rw [fp_feq_comm p.latitude q.latitude, fp_feq_comm p.longitude q.longitude]

lemma pathFirstBreak_none_iff {α : Type} [BEq α] (l : List (Line α)) (i : ℕ) :
    pathFirstBreak i l = none
      ↔ List.Chain' (fun x y => Path.path_is_valid x y = true) l := by
  induction l generalizing i with
  | nil => simp [pathFirstBreak]
  | cons a t ih =>
    cases t with
    | nil => simp [pathFirstBreak]
    | cons b r =>
      by_cases h : Path.path_is_valid a b = true
      · simp [pathFirstBreak, h, ih, List.chain'_cons]
      · simp [pathFirstBreak, h, List.chain'_cons]

lemma pathFirstBreak_first_break {α : Type} [BEq α] :
    ∀ (pre : List (Line α)) (a b : Line α) (post : List (Line α)) (i : ℕ),
      List.Chain' (fun x y => Path.path_is_valid x y = true) (pre ++ [a]) →
      Path.path_is_valid a b = false →
      pathFirstBreak (i + 1) (pre ++ a :: b :: post)
        = some (i + pre.length, i + pre.length + 1)
  | [], a, b, post, i, _, hab => by
    simp [pathFirstBreak, hab]
  | p :: pre', a, b, post, i, hchain, hab => by
    rw [List.cons_append, List.chain'_cons'] at hchain
    obtain ⟨hhd, htl⟩ := hchain
    cases pre' with
    | nil =>
      have hpa : Path.path_is_valid p a = true := hhd a (by simp)
      have hrec := pathFirstBreak_first_break [] a b post (i + 1) (by simp) hab
      show pathFirstBreak (i + 1) (p :: a :: b :: post) = _
      rw [show pathFirstBreak (i + 1) (p :: a :: b :: post)
          = pathFirstBreak (i + 2) (a :: b :: post) by simp [pathFirstBreak, hpa]]
      simp only [List.nil_append] at hrec
      rw [hrec]
      simp
    | cons x pre'' =>
      have hpx : Path.path_is_valid p x = true := hhd x (by simp)
      have hrec := pathFirstBreak_first_break (x :: pre'') a b post (i + 1) htl hab
      show pathFirstBreak (i + 1) (p :: ((x :: pre'') ++ a :: b :: post)) = _
      rw [show pathFirstBreak (i + 1) (p :: ((x :: pre'') ++ a :: b :: post))
          = pathFirstBreak (i + 2) ((x :: pre'') ++ a :: b :: post) by
        simp [pathFirstBreak, hpx]]
      rw [hrec]
      have h1 : i + 1 + (x :: pre'').length = i + (p :: x :: pre'').length := by
        simp
        omega
      rw [h1]

lemma atan2_sin_cos (t : ℝ) (h1 : -(Real.pi / 2) < t) (h2 : t < Real.pi / 2) :
    atan2 (Real.sin t) (Real.cos t) = t := by
  have hc : 0 < Real.cos t := Real.cos_pos_of_mem_Ioo ⟨h1, h2⟩
  rw [atan2, if_pos hc, ← Real.tan_eq_sin_div_cos, Real.arctan_tan h1 h2]

lemma haversine_zero_zero_one (k : EarthConstants) :
    calculate_earth_radius_distance_haversine k ⟨0, 0⟩ ⟨0, 1⟩
      = k.EARTH_RADIUS_KM * Real.pi / 180 := by
  have hpi := Real.pi_pos
  have ht0 : 0 < Real.pi / 360 := by positivity
  have ht2 : Real.pi / 360 < Real.pi / 2 := by nlinarith
  have htpi : Real.pi / 360 < Real.pi := by nlinarith
  have hneg : -(Real.pi / 2) < Real.pi / 360 := by nlinarith
  have hsin : 0 ≤ Real.sin (Real.pi / 360) :=
    le_of_lt (Real.sin_pos_of_pos_of_lt_pi ht0 htpi)
  have hcos : 0 ≤ Real.cos (Real.pi / 360) :=
    le_of_lt (Real.cos_pos_of_mem_Ioo ⟨hneg, ht2⟩)
  simp only [calculate_earth_radius_distance_haversine, degrees_to_radians]
  norm_num
  rw [show Real.pi / 180 / 2 = Real.pi / 360 by ring]
  rw [Real.sqrt_sq hsin]
  rw [show (1 : ℝ) - Real.sin (Real.pi / 360) ^ 2 = Real.cos (Real.pi / 360) ^ 2 by
    have := Real.sin_sq_add_cos_sq (Real.pi / 360); linarith]
  rw [Real.sqrt_sq hcos]
  rw [atan2_sin_cos _ hneg ht2]
  ring

lemma vincentySinSigma_self (s c : ℝ) : vincentySinSigma s c s c 0 = 0 := by
  unfold vincentySinSigma
  rw [Real.sin_zero, Real.cos_zero]
  rw [show (c * 0) ^ 2 + (c * s - s * c * 1) ^ 2 = 0 by ring]
  exact Real.sqrt_zero

lemma vincentyLoop_sigma_zero (k : EarthConstants) (bigL s1 c1 s2 c2 : ℝ) (n : ℕ) (lam : ℝ)
    (h : vincentySinSigma s1 c1 s2 c2 lam = 0) :
    vincentyLoop k bigL s1 c1 s2 c2 (n + 1) lam = .ok 0 := by
  simp only [vincentyLoop]
  rw [if_pos h]

lemma vincentyLoop_break (k : EarthConstants) (bigL s1 c1 s2 c2 : ℝ) (n : ℕ) (lam : ℝ)
    (h1 : vincentySinSigma s1 c1 s2 c2 lam ≠ 0)
    (h2 : |vincentyNext k bigL s1 c1 s2 c2 lam - lam| < 1e-12) :
    vincentyLoop k bigL s1 c1 s2 c2 (n + 1) lam
      = .ok (vincentyBreak k s1 c1 s2 c2 lam) := by
  simp only [vincentyLoop]
  rw [if_neg h1, if_pos h2]

lemma FF.sin_nan : FF.sin .nan = .nan := rfl

lemma FF.cos_nan : FF.cos .nan = .nan := rfl

lemma FF.sqrt_nan : FF.sqrt .nan = .nan := rfl

lemma FF.fabs_nan : FF.fabs .nan = .nan := rfl

lemma FF.pow2_nan : FF.pow2 .nan = .nan := rfl

lemma FF.add_nan_left (a : FF) : FF.add .nan a = .nan := by cases a <;> rfl

lemma FF.add_nan_right (a : FF) : FF.add a .nan = .nan := by cases a <;> rfl

lemma FF.sub_nan_left (a : FF) : FF.sub .nan a = .nan := by cases a <;> rfl

lemma FF.sub_nan_right (a : FF) : FF.sub a .nan = .nan := by cases a <;> rfl

lemma FF.mul_nan_left (a : FF) : FF.mul .nan a = .nan := by cases a <;> rfl

lemma FF.mul_nan_right (a : FF) : FF.mul a .nan = .nan := by cases a <;> rfl

lemma FF.div_nan_left (a : FF) : FF.div .nan a = .nan := by cases a <;> rfl

lemma FF.div_nan_right (a : FF) : FF.div a .nan = .nan := by cases a <;> rfl

lemma FF.atan2v_nan_left (a : FF) : FF.atan2v .nan a = .nan := by cases a <;> rfl

lemma FF.atan2v_nan_right (a : FF) : FF.atan2v a .nan = .nan := by cases a <;> rfl

lemma FF.beq_nan_left (a : FF) : FF.beq .nan a = false := by cases a <;> rfl

lemma FF.flt_nan_left (a : FF) : FF.flt .nan a = false := by cases a <;> rfl

lemma vincentyLoopFF_nan (k : EarthConstants) (bigL : FF) :
    ∀ (n : ℕ) (lambda : FF),
      vincentyLoopFF k bigL .nan .nan .nan .nan n lambda
        = .error "Convergência não atingida" := by
  intro n
  induction n with
  | zero => intro lambda; rfl
  | succ n ih =>
    intro lambda
    simp only [vincentyLoopFF]
    simp [FF.mul_nan_left, FF.mul_nan_right, FF.pow2_nan, FF.add_nan_left, FF.add_nan_right,
      FF.sub_nan_left, FF.sub_nan_right, FF.div_nan_left, FF.div_nan_right,
      FF.sqrt_nan, FF.fabs_nan, FF.atan2v_nan_left, FF.atan2v_nan_right,
      FF.beq_nan_left, FF.flt_nan_left, ih]

lemma vincentyLoopFF_self (k : EarthConstants) (bigL s c : ℝ) (n : ℕ) :
    vincentyLoopFF k (FF.num bigL) (FF.num s) (FF.num c) (FF.num s) (FF.num c)
      (n + 1) (FF.num 0) = .ok (FF.num 0) := by
  simp only [vincentyLoopFF]
  simp [FF.sin, FF.cos, FF.mul, FF.sub, FF.add, FF.pow2, FF.sqrt, FF.beq,
    Real.sin_zero, Real.cos_zero, mul_comm]

lemma vincentyFF_num_self (k : EarthConstants) (a b : ℝ) :
    calculate_earth_radius_distance_vincentyFF k ⟨FF.num a, FF.num b⟩ ⟨FF.num a, FF.num b⟩
      = .ok (FF.num 0) := by
  have hdtr : ∀ x : ℝ, degrees_to_radiansFF (FF.num x) = FF.num (x * Real.pi / 180) := by
    intro x
    show (if (180 : ℝ) = 0 then FF.nan else FF.num (x * Real.pi / 180))
      = FF.num (x * Real.pi / 180)
    rw [if_neg (by norm_num : ¬(180 : ℝ) = 0)]
  show vincentyLoopFF k
      (FF.sub (degrees_to_radiansFF (FF.num b)) (degrees_to_radiansFF (FF.num b)))
      (FF.sin (vincentyUFF k (degrees_to_radiansFF (FF.num a))))
      (FF.cos (vincentyUFF k (degrees_to_radiansFF (FF.num a))))
      (FF.sin (vincentyUFF k (degrees_to_radiansFF (FF.num a))))
      (FF.cos (vincentyUFF k (degrees_to_radiansFF (FF.num a))))
      100
      (FF.sub (degrees_to_radiansFF (FF.num b)) (degrees_to_radiansFF (FF.num b)))
      = .ok (FF.num 0)
  simp only [hdtr]
  show vincentyLoopFF k (FF.num (b * Real.pi / 180 - b * Real.pi / 180))
      (FF.num (Real.sin (Real.arctan ((1 - k.FLATTENING) * Real.tan (a * Real.pi / 180)))))
      (FF.num (Real.cos (Real.arctan ((1 - k.FLATTENING) * Real.tan (a * Real.pi / 180)))))
      (FF.num (Real.sin (Real.arctan ((1 - k.FLATTENING) * Real.tan (a * Real.pi / 180)))))
      (FF.num (Real.cos (Real.arctan ((1 - k.FLATTENING) * Real.tan (a * Real.pi / 180)))))
      100 (FF.num (b * Real.pi / 180 - b * Real.pi / 180)) = .ok (FF.num 0)
  rw [sub_self, show (100 : ℕ) = 99 + 1 by norm_num]
  exact vincentyLoopFF_self k 0 _ _ 99

/-! ## Claim theorems -/

/-- C7: for every Segment, the Euclidean distance treats (latitude,
longitude) as planar Cartesian coordinates and returns
`sqrt(Δlat² + Δlon²)`; the Euclidean distance of the segment from
(0,0) to (3,4) is exactly 5. -/
theorem euclidean_distance_planar :
    (∀ l : Line ℝ, l.calculate_euclidean_distance
      = Real.sqrt ((l.ending_vertex.latitude - l.starting_vertex.latitude) ^ 2
        + (l.ending_vertex.longitude - l.starting_vertex.longitude) ^ 2)) ∧
    (Line.mk ⟨0, 0⟩ ⟨3, 4⟩).calculate_euclidean_distance = 5 := by
  constructor
  · intro l
    simp only [Line.calculate_euclidean_distance]
    congr 1
    ring
  · show Real.sqrt (((3 : ℝ) - 0) * ((3 : ℝ) - 0) + ((4 : ℝ) - 0) * ((4 : ℝ) - 0)) = 5
    rw [show ((3 : ℝ) - 0) * ((3 : ℝ) - 0) + ((4 : ℝ) - 0) * ((4 : ℝ) - 0) = 25 by norm_num]
    exact sqrt_twentyfive

/-- C9: the Segment method `calculate_earth_radius_distance` and the free
function `calculate_earth_radius_distance_haversine` perform the same
sequence of operations with the same radius constant, so they return the
identical result for every pair of vertices. -/
theorem haversine_method_eq_free_function :
    ∀ (k : EarthConstants) (v1 v2 : Vertex ℝ),
      (Line.mk v1 v2).calculate_earth_radius_distance k
        = calculate_earth_radius_distance_haversine k v1 v2 :=
  fun _ _ _ => rfl

/-- C10: both the Euclidean and the Haversine distance are symmetric:
for every pair of distinct vertices, the segment from p to q and the
segment from q to p yield the identical distance (differences enter only
squared or through commutative products). -/
theorem distance_symmetric :
    ∀ (k : EarthConstants) (p q : Vertex ℝ), p ≠ q →
      (Line.mk p q).calculate_euclidean_distance
        = (Line.mk q p).calculate_euclidean_distance ∧
      (Line.mk p q).calculate_earth_radius_distance k
        = (Line.mk q p).calculate_earth_radius_distance k :=
  fun k p q _ => ⟨euclid_swap p q, haversine_swap k p q⟩

/-- Witness for C10 at the concrete pair (0,0) and (3,4). -/
theorem distance_symmetric_witness :
    ((⟨0, 0⟩ : Vertex ℝ) ≠ ⟨3, 4⟩) ∧
    ((Line.mk ⟨0, 0⟩ ⟨3, 4⟩).calculate_euclidean_distance
        = (Line.mk ⟨3, 4⟩ ⟨0, 0⟩).calculate_euclidean_distance ∧
      (Line.mk ⟨0, 0⟩ ⟨3, 4⟩).calculate_earth_radius_distance ⟨6371, 0, 0, 0⟩
        = (Line.mk ⟨3, 4⟩ ⟨0, 0⟩).calculate_earth_radius_distance ⟨6371, 0, 0, 0⟩) :=
  have hne : (⟨0, 0⟩ : Vertex ℝ) ≠ ⟨3, 4⟩ := by
    intro h
    have : (0 : ℝ) = 3 := congrArg Vertex.latitude h
    norm_num at this
  ⟨hne, distance_symmetric ⟨6371, 0, 0, 0⟩ _ _ hne⟩

/-- C3, counterexample: the claim quantifies over every Point, but for a
Point with a NaN coordinate the exact float equality used by `Vertex`
makes the point unequal to itself, so `Line::new(p, p)` succeeds instead
of failing as degenerate. -/
theorem segment_nan_not_degenerate_counterexample :
    Line.new (⟨FP.nan, FP.num 0⟩ : Vertex FP) ⟨FP.nan, FP.num 0⟩
      = .ok ⟨⟨FP.nan, FP.num 0⟩, ⟨FP.nan, FP.num 0⟩⟩ := rfl

/-- C3 (amended): for every Point p both of whose coordinates are
non-NaN, `Line::new(p, p)` fails with the degeneracy error carrying both
offending points; and for every pair of Points unequal under exact
field-wise float equality, construction succeeds in both directions. -/
theorem segment_degeneracy :
    (∀ p : Vertex FP, p.latitude ≠ FP.nan → p.longitude ≠ FP.nan →
      Line.new p p = .error (p, p)) ∧
    (∀ p q : Vertex FP, Vertex.eq p q = false →
      Line.new p q = .ok ⟨p, q⟩ ∧ Line.new q p = .ok ⟨q, p⟩) := by
  constructor
  · rintro ⟨la, lo⟩ h1 h2
    cases la with
    | nan => exact absurd rfl h1
    | num a =>
      cases lo with
      | nan => exact absurd rfl h2
      | num b => simp [Line.new, Line.line_is_valid, Vertex.eq, instBEqFP, FP.feq]
  · intro p q h
    have h2 : Vertex.eq q p = false := by rw [vertex_eq_comm_fp]; exact h
    constructor
    · simp [Line.new, Line.line_is_valid, h]
    · simp [Line.new, Line.line_is_valid, h2]

/-- Witness for C3 (amended) at the concrete points (1,2) and (3,4). -/
theorem segment_degeneracy_witness :
    ((⟨FP.num 1, FP.num 2⟩ : Vertex FP).latitude ≠ FP.nan ∧
      (⟨FP.num 1, FP.num 2⟩ : Vertex FP).longitude ≠ FP.nan ∧
      Line.new (⟨FP.num 1, FP.num 2⟩ : Vertex FP) ⟨FP.num 1, FP.num 2⟩
        = .error (⟨FP.num 1, FP.num 2⟩, ⟨FP.num 1, FP.num 2⟩)) ∧
    (Vertex.eq (⟨FP.num 1, FP.num 2⟩ : Vertex FP) ⟨FP.num 3, FP.num 4⟩ = false ∧
      Line.new (⟨FP.num 1, FP.num 2⟩ : Vertex FP) ⟨FP.num 3, FP.num 4⟩
        = .ok ⟨⟨FP.num 1, FP.num 2⟩, ⟨FP.num 3, FP.num 4⟩⟩ ∧
      Line.new (⟨FP.num 3, FP.num 4⟩ : Vertex FP) ⟨FP.num 1, FP.num 2⟩
        = .ok ⟨⟨FP.num 3, FP.num 4⟩, ⟨FP.num 1, FP.num 2⟩⟩) :=
  have hne : Vertex.eq (⟨FP.num 1, FP.num 2⟩ : Vertex FP) ⟨FP.num 3, FP.num 4⟩ = false := by
    decide
  ⟨⟨by decide, by decide,
    segment_degeneracy.1 ⟨FP.num 1, FP.num 2⟩ (by decide) (by decide)⟩,
   ⟨hne, segment_degeneracy.2 ⟨FP.num 1, FP.num 2⟩ ⟨FP.num 3, FP.num 4⟩ hne⟩⟩

/-- C8: for every Point with a NaN coordinate, segment construction from
the point to itself succeeds (NaN compares unequal to itself under the
exact float equality), and Point equality is reflexive exactly for the
points with no NaN coordinate. -/
theorem nan_point_segment_succeeds :
    (∀ p : Vertex FP, (p.latitude = FP.nan ∨ p.longitude = FP.nan) →
      Line.new p p = .ok ⟨p, p⟩) ∧
    (∀ p : Vertex FP,
      Vertex.eq p p = true ↔ (p.latitude ≠ FP.nan ∧ p.longitude ≠ FP.nan)) := by
  constructor
  · rintro ⟨la, lo⟩ h
    rcases h with h | h
    · cases h
      simp [Line.new, Line.line_is_valid, Vertex.eq, instBEqFP, FP.feq]
    · cases h
      simp [Line.new, Line.line_is_valid, Vertex.eq, instBEqFP, FP.feq]
  · rintro ⟨la, lo⟩
    cases la <;> cases lo <;>
      simp [Vertex.eq, instBEqFP, FP.feq]

/-- Witness for C8 at the concrete point (NaN, 0). -/
theorem nan_point_segment_succeeds_witness :
    ((⟨FP.nan, FP.num 0⟩ : Vertex FP).latitude = FP.nan ∨
      (⟨FP.nan, FP.num 0⟩ : Vertex FP).longitude = FP.nan) ∧
    Line.new (⟨FP.nan, FP.num 0⟩ : Vertex FP) ⟨FP.nan, FP.num 0⟩
      = .ok ⟨⟨FP.nan, FP.num 0⟩, ⟨FP.nan, FP.num 0⟩⟩ :=
  ⟨Or.inl rfl, nan_point_segment_succeeds.1 ⟨FP.nan, FP.num 0⟩ (Or.inl rfl)⟩

/-- C4: `Path::new(lines)` succeeds exactly when every adjacent pair of
lines connects (previous ending vertex equals next starting vertex under
exact Point equality); on the first broken adjacency it fails fast with
the offending index pair (i-1, i); closedness is never required, so a
closed two-segment path is accepted. -/
theorem path_new_validation {α : Type} [BEq α] :
    (∀ lines : List (Line α),
      Path.new lines = .ok ⟨lines⟩
        ↔ List.Chain' (fun x y => Path.path_is_valid x y = true) lines) ∧
    (∀ (pre : List (Line α)) (a b : Line α) (post : List (Line α)),
      List.Chain' (fun x y => Path.path_is_valid x y = true) (pre ++ [a]) →
      Path.path_is_valid a b = false →
      Path.new (pre ++ a :: b :: post) = .error (pre.length, pre.length + 1)) ∧
    (Path.new [Line.mk (⟨FP.num 0, FP.num 0⟩ : Vertex FP) ⟨FP.num 3, FP.num 4⟩,
        Line.mk ⟨FP.num 3, FP.num 4⟩ ⟨FP.num 0, FP.num 0⟩]
      = .ok ⟨[Line.mk ⟨FP.num 0, FP.num 0⟩ ⟨FP.num 3, FP.num 4⟩,
        Line.mk ⟨FP.num 3, FP.num 4⟩ ⟨FP.num 0, FP.num 0⟩]⟩) := by
  refine ⟨fun lines => ?_, fun pre a b post hchain hab => ?_, by rfl⟩
  · rw [← pathFirstBreak_none_iff lines 1]
    cases h : pathFirstBreak 1 lines <;> simp [Path.new, h]
  · have := pathFirstBreak_first_break pre a b post 0 hchain hab
    simp only [Nat.zero_add] at this
    simp [Path.new, this]

/-- Witness for C4: a two-line path broken at its only adjacency is
rejected with index pair (0, 1). -/
theorem path_new_validation_witness :
    List.Chain' (fun x y => Path.path_is_valid x y = true)
      ([Line.mk (⟨FP.num 0, FP.num 0⟩ : Vertex FP) ⟨FP.num 1, FP.num 1⟩]) ∧
    Path.path_is_valid (Line.mk (⟨FP.num 0, FP.num 0⟩ : Vertex FP) ⟨FP.num 1, FP.num 1⟩)
      (Line.mk (⟨FP.num 2, FP.num 2⟩ : Vertex FP) ⟨FP.num 3, FP.num 3⟩) = false ∧
    Path.new [Line.mk (⟨FP.num 0, FP.num 0⟩ : Vertex FP) ⟨FP.num 1, FP.num 1⟩,
        Line.mk (⟨FP.num 2, FP.num 2⟩ : Vertex FP) ⟨FP.num 3, FP.num 3⟩]
      = .error (0, 1) :=
  have h1 : List.Chain' (fun x y => Path.path_is_valid x y = true)
      ([Line.mk (⟨FP.num 0, FP.num 0⟩ : Vertex FP) ⟨FP.num 1, FP.num 1⟩]) := by
    simp
  have h2 : Path.path_is_valid (Line.mk (⟨FP.num 0, FP.num 0⟩ : Vertex FP) ⟨FP.num 1, FP.num 1⟩)
      (Line.mk (⟨FP.num 2, FP.num 2⟩ : Vertex FP) ⟨FP.num 3, FP.num 3⟩) = false := by
    decide
  ⟨h1, h2, path_new_validation.2.1 []
    (Line.mk ⟨FP.num 0, FP.num 0⟩ ⟨FP.num 1, FP.num 1⟩)
    (Line.mk ⟨FP.num 2, FP.num 2⟩ ⟨FP.num 3, FP.num 3⟩) [] h1 h2⟩

/-- C5: for every Path, `calculate_full_distance(methodology)` is the
sum over the lines of the chosen per-segment distance; the empty path
yields 0 under any methodology; and the two connected segments
(0,0)→(3,4) and (3,4)→(6,8) under the Euclidean methodology give total
distance 10. -/
theorem path_full_distance_sum :
    (∀ (k : EarthConstants) (m : PathCalcFullDistanceOptions) (p : Path ℝ),
      p.calculate_full_distance k m = (p.lines.map (segmentDistance k m)).sum) ∧
    (∀ (k : EarthConstants) (m : PathCalcFullDistanceOptions),
      (Path.mk ([] : List (Line ℝ))).calculate_full_distance k m = 0) ∧
    (∀ k : EarthConstants,
      Path.new [Line.mk (⟨0, 0⟩ : Vertex ℝ) ⟨3, 4⟩, Line.mk ⟨3, 4⟩ ⟨6, 8⟩]
        = .ok ⟨[Line.mk ⟨0, 0⟩ ⟨3, 4⟩, Line.mk ⟨3, 4⟩ ⟨6, 8⟩]⟩ ∧
      (Path.mk [Line.mk (⟨0, 0⟩ : Vertex ℝ) ⟨3, 4⟩,
          Line.mk ⟨3, 4⟩ ⟨6, 8⟩]).calculate_full_distance k .Euclidean = 10) := by
  refine ⟨fun k m p => ?_, fun k m => ?_, fun k => ⟨?_, ?_⟩⟩
  · cases m <;> rfl
  · cases m <;> rfl
  · simp [Path.new, pathFirstBreak, Path.path_is_valid, Vertex.eq]
  · show (Line.mk (⟨0, 0⟩ : Vertex ℝ) ⟨3, 4⟩).calculate_euclidean_distance
      + ((Line.mk (⟨3, 4⟩ : Vertex ℝ) ⟨6, 8⟩).calculate_euclidean_distance + 0) = 10
    simp only [Line.calculate_euclidean_distance]
    norm_num
    rw [sqrt_twentyfive]
    norm_num

/-- C6: the spherical distance is exactly the Haversine formula of the
spec with the configured mean radius, and the distance from (0°,0°) to
(0°,1°) is within 0.001 km of `R·π/180` (it equals it exactly over the
real-number model). -/
theorem haversine_matches_spec_formula :
    (∀ (k : EarthConstants) (v1 v2 : Vertex ℝ),
      calculate_earth_radius_distance_haversine k v1 v2 = haversineSpecFormula k v1 v2) ∧
    (∀ k : EarthConstants,
      |calculate_earth_radius_distance_haversine k ⟨0, 0⟩ ⟨0, 1⟩
        - k.EARTH_RADIUS_KM * Real.pi / 180| < 0.001) := by
  refine ⟨fun k v1 v2 => rfl, fun k => ?_⟩
  rw [haversine_zero_zero_one k, sub_self, abs_zero]
  norm_num

/-- C2, counterexample: the claim quantifies over every point paired
with itself, but for a Point with a NaN coordinate the NaN propagates
through every iteration (`sin_sigma` is NaN, which is never `== 0.0`,
and the tolerance comparison on NaN is false), so the real code runs to
the 100-iteration cap and returns the non-convergence error instead of
Ok(0.0) on the first iteration. -/
theorem vincenty_nan_self_pair_counterexample :
    calculate_earth_radius_distance_vincentyFF ⟨6371, 1 / 298, 6378137, 6356752⟩
      ⟨FF.nan, FF.num 0⟩ ⟨FF.nan, FF.num 0⟩ = .error "Convergência não atingida" := by
  show vincentyLoopFF ⟨6371, 1 / 298, 6378137, 6356752⟩
      (FF.sub (degrees_to_radiansFF (FF.num 0)) (degrees_to_radiansFF (FF.num 0)))
      FF.nan FF.nan FF.nan FF.nan 100
      (FF.sub (degrees_to_radiansFF (FF.num 0)) (degrees_to_radiansFF (FF.num 0)))
      = .error "Convergência não atingida"
  exact vincentyLoopFF_nan _ _ 100 _

/-- C2 (amended): whenever an iteration of the Vincenty loop finds
`sin_sigma` exactly 0 it returns Ok(0) immediately (before the division
by `sin_sigma`); for every point with non-NaN coordinates paired with
itself the loop returns Ok(0) on the first iteration (one unit of fuel
suffices) and the full function returns Ok(0), never the non-convergence
error — stated both over the NaN-free real carrier and, for the non-NaN
points of the NaN-aware f64 carrier, over `FF`. -/
theorem vincenty_coincident_points_zero :
    (∀ (k : EarthConstants) (bigL s1 c1 s2 c2 : ℝ) (n : ℕ) (lam : ℝ),
      vincentySinSigma s1 c1 s2 c2 lam = 0 →
      vincentyLoop k bigL s1 c1 s2 c2 (n + 1) lam = .ok 0) ∧
    (∀ (k : EarthConstants) (v : Vertex ℝ),
      vincentyLoop k 0 (Real.sin (vincentyU k (degrees_to_radians v.latitude)))
        (Real.cos (vincentyU k (degrees_to_radians v.latitude)))
        (Real.sin (vincentyU k (degrees_to_radians v.latitude)))
        (Real.cos (vincentyU k (degrees_to_radians v.latitude))) 1 0 = .ok 0) ∧
    (∀ (k : EarthConstants) (v : Vertex ℝ),
      calculate_earth_radius_distance_vincenty k v v = .ok 0) ∧
    (∀ (k : EarthConstants) (a b : ℝ),
      calculate_earth_radius_distance_vincentyFF k ⟨FF.num a, FF.num b⟩ ⟨FF.num a, FF.num b⟩
        = .ok (FF.num 0)) := by
  refine ⟨fun k bigL s1 c1 s2 c2 n lam h => vincentyLoop_sigma_zero k bigL s1 c1 s2 c2 n lam h,
    fun k v => vincentyLoop_sigma_zero k 0 _ _ _ _ 0 0 (vincentySinSigma_self _ _),
    fun k v => ?_, fun k a b => vincentyFF_num_self k a b⟩
  simp only [calculate_earth_radius_distance_vincenty]
  rw [sub_self]
  rw [show (100 : ℕ) = 99 + 1 by norm_num]
  exact vincentyLoop_sigma_zero k 0 _ _ _ _ 99 0 (vincentySinSigma_self _ _)

/-- Witness for C2: the sin-sigma-zero short-circuit at a concrete input
where `sin_sigma` is exactly 0. -/
theorem vincenty_coincident_points_zero_witness :
    vincentySinSigma 0 1 0 1 0 = 0 ∧
    vincentyLoop ⟨0, 0, 0, 0⟩ 0 0 1 0 1 1 0 = .ok 0 :=
  have h : vincentySinSigma 0 1 0 1 0 = 0 := vincentySinSigma_self 0 1
  ⟨h, vincenty_coincident_points_zero.1 ⟨0, 0, 0, 0⟩ 0 0 1 0 1 0 0 h⟩

/-- C1: the Vincenty distance runs the λ fixed-point iteration with a
cap of exactly 100 iterations (termination is structural in the fuel);
exhausting the cap yields the non-convergence error rather than any
approximate distance; and as soon as an iteration moves λ by less than
1e-12 the loop stops and returns a distance. -/
theorem vincenty_iteration_cap :
    (∀ (k : EarthConstants) (sv ev : Vertex ℝ),
      calculate_earth_radius_distance_vincenty k sv ev
        = vincentyLoop k
            (degrees_to_radians ev.longitude - degrees_to_radians sv.longitude)
            (Real.sin (vincentyU k (degrees_to_radians sv.latitude)))
            (Real.cos (vincentyU k (degrees_to_radians sv.latitude)))
            (Real.sin (vincentyU k (degrees_to_radians ev.latitude)))
            (Real.cos (vincentyU k (degrees_to_radians ev.latitude)))
            100
            (degrees_to_radians ev.longitude - degrees_to_radians sv.longitude)) ∧
    (∀ (k : EarthConstants) (bigL s1 c1 s2 c2 lam : ℝ),
      vincentyLoop k bigL s1 c1 s2 c2 0 lam = .error "Convergência não atingida") ∧
    (∀ (k : EarthConstants) (bigL s1 c1 s2 c2 : ℝ) (n : ℕ) (lam : ℝ),
      vincentySinSigma s1 c1 s2 c2 lam ≠ 0 →
      |vincentyNext k bigL s1 c1 s2 c2 lam - lam| < 1e-12 →
      vincentyLoop k bigL s1 c1 s2 c2 (n + 1) lam
        = .ok (vincentyBreak k s1 c1 s2 c2 lam)) :=
  ⟨fun _ _ _ => rfl, fun _ _ _ _ _ _ _ => rfl,
    fun k bigL s1 c1 s2 c2 n lam h1 h2 => vincentyLoop_break k bigL s1 c1 s2 c2 n lam h1 h2⟩

/-- Witness for C1: a concrete iteration state whose `sin_sigma` is
nonzero and whose λ update moves less than 1e-12, so the loop breaks
with a distance on its first iteration. -/
theorem vincenty_iteration_cap_witness :
    vincentySinSigma 0 1 0 1 (Real.pi / 2) ≠ 0 ∧
    |vincentyNext ⟨0, 0, 0, 0⟩ (Real.pi / 2) 0 1 0 1 (Real.pi / 2) - Real.pi / 2| < 1e-12 ∧
    vincentyLoop ⟨0, 0, 0, 0⟩ (Real.pi / 2) 0 1 0 1 1 (Real.pi / 2)
      = .ok (vincentyBreak ⟨0, 0, 0, 0⟩ 0 1 0 1 (Real.pi / 2)) :=
  have h1 : vincentySinSigma 0 1 0 1 (Real.pi / 2) ≠ 0 := by
    unfold vincentySinSigma
    rw [Real.sin_pi_div_two, Real.cos_pi_div_two]
    rw [show ((1 : ℝ) * 1) ^ 2 + (1 * 0 - 0 * 1 * 0) ^ 2 = 1 by ring]
    rw [Real.sqrt_one]
    exact one_ne_zero
  have h2 : |vincentyNext ⟨0, 0, 0, 0⟩ (Real.pi / 2) 0 1 0 1 (Real.pi / 2) - Real.pi / 2|
      < 1e-12 := by
    have hz : vincentyNext ⟨0, 0, 0, 0⟩ (Real.pi / 2) 0 1 0 1 (Real.pi / 2) = Real.pi / 2 := by
      simp [vincentyNext]
    rw [hz, sub_self, abs_zero]
    norm_num
  ⟨h1, h2, vincenty_iteration_cap.2.2 ⟨0, 0, 0, 0⟩ (Real.pi / 2) 0 1 0 1 0 (Real.pi / 2) h1 h2⟩

end RustSpatial

